import Mathlib

/-!
Verification of the dynamic-hedge core of the `iunknow588/dex` repository.

The development shallowly embeds, in Lean 4:

* the hedge决策 engine `HedgeStateManager`
  (src/business/core/services/hedge/HedgeStateManager.ts),
* the order ledger `OrderStateManager`
  (src/business/core/services/order/OrderStateManager.ts),
* the countdown scheduler of `DynamicHedgePanel`
  (src/ui/components/hedge/DynamicHedgePanel.tsx), and
* the execute handler `handleExecuteAction` of `DynamicHedgeTradingForm`
  (src/ui/components/trading/DynamicHedgeTradingForm.tsx).

Conventions of the embedding:

* Prices and quantities are `ℚ`.  The TypeScript code stores them as strings
  and reads them through `parseFloat` at every use; we model the parsed
  numeric value directly.  All comparisons performed by the code are order
  comparisons on these values, which `ℚ` reproduces exactly at every input
  appearing in the claims.
* Class instances become structures; a mutating method becomes a function
  from the structure to the structure, returning in addition whatever the
  method returns and the list of callback notifications it fires.
* `Date.now()` and the random order-id generator are effects; the functions
  that use them take the current time `now : ℕ` and the fresh id as explicit
  arguments.
* A thrown exception becomes an `Option`/error result; `AppError` mirrors
  the repository's error object (its wall-clock `timestamp` and free-form
  `details` fields, which no claim mentions, are not modelled).
-/

namespace Dex

/-- Order-role state enumeration `OrderStatus` (src/business/core/types/index.ts). -/
inductive OrderStatus where
  | NORMAL_RUNNING
  | PREPARING_RISK_LOCK
  | RISK_LOCKING
  | PREPARING_PROFIT_LOCK
  | PROFIT_LOCKING
  deriving DecidableEq, Repr

/-- Lifecycle status of an order: `'pending' | 'filled' | 'cancelled' | 'expired'`. -/
inductive LifecycleStatus where
  | pending
  | filled
  | cancelled
  | expired
  deriving DecidableEq, Repr

/-- Order side: `'buy' | 'sell'`. -/
inductive Side where
  | buy
  | sell
  deriving DecidableEq, Repr

/-- Order kind: `'limit' | 'market'`. -/
inductive OrderKind where
  | limit
  | market
  deriving DecidableEq, Repr

/-- Time in force: `'GTC' | 'IOC' | 'FOK'`. -/
inductive TimeInForce where
  | GTC
  | IOC
  | FOK
  deriving DecidableEq, Repr

/-- The `Order` record (src/business/core/types/index.ts). -/
structure Order where
  id : String
  marketId : String
  side : Side
  type : OrderKind
  price : ℚ
  quantity : ℚ
  filledQuantity : ℚ
  remainingQuantity : ℚ
  status : LifecycleStatus
  orderState : OrderStatus
  timeInForce : TimeInForce
  createdAt : ℕ
  updatedAt : ℕ
  deriving DecidableEq, Repr

/-- `HedgeState` enumeration (src/business/core/types/index.ts). -/
inductive HedgeState where
  | MAIN_ONLY
  | HEDGE_RISK_LOCK
  | HEDGE_PROFIT_LOCK
  | CYCLING
  deriving DecidableEq, Repr

/-- `PriceZone` enumeration (src/business/core/types/index.ts). -/
inductive PriceZone where
  | RISK_LOCK
  | PROFIT_LOCK
  | NEUTRAL
  deriving DecidableEq, Repr

/-- `HedgeConfig` (src/business/core/types/index.ts): trigger prices and
quantity are strings in the source, consumed through `parseFloat`; we model
the parsed values. -/
structure HedgeConfig where
  riskLockPrice : ℚ
  profitLockPrice : ℚ
  quantity : ℚ
  enabled : Bool
  deriving DecidableEq, Repr

/-- `NextAction` (src/business/core/types/index.ts).  The declared interface
has `type` (a union of five string literals), `description`, and an optional
`countdown`.  `DynamicHedgePanel` additionally reads an `autoExecute`
property that the interface does not declare; in JavaScript that read
yields `undefined`, modelled as `none`.  `type` is kept as `String` because
`DynamicHedgeTradingForm.handleExecuteAction` compares it against the tag
`"create_hedge"`, which lies outside the declared union. -/
structure NextAction where
  type : String
  description : String
  countdown : Option ℕ
  autoExecute : Option Bool
  deriving DecidableEq, Repr

/-- `ErrorType` enumeration (src/data/store/tradingStore.ts). -/
inductive ErrorType where
  | NETWORK_ERROR
  | BLOCKCHAIN_ERROR
  | VALIDATION_ERROR
  | PERMISSION_ERROR
  | TIMEOUT_ERROR
  | UNKNOWN_ERROR
  deriving DecidableEq, Repr

/-- `AppError` (src/data/store/tradingStore.ts), without the wall-clock
`timestamp` and the free-form `details` field. -/
structure AppError where
  type : ErrorType
  code : String
  message : String
  recoverable : Bool
  deriving DecidableEq, Repr

/-- `createValidationError` (error-handler utility module): builds a
recoverable `VALIDATION_ERROR` via `errorHandler.createError`. -/
def createValidationError (message : String) : AppError :=
  { type := ErrorType.VALIDATION_ERROR
    code := "VALIDATION_ERROR"
    message := message
    recoverable := true }

/-- Instance state of the `HedgeStateManager` class
(src/business/core/services/hedge/HedgeStateManager.ts, delivered as
src/unnamed/part_002): `currentState`, `config`, `mainOrder`, `hedgeOrders`. -/
structure HedgeStateManager where
  currentState : HedgeState
  config : Option HedgeConfig
  mainOrder : Option Order
  hedgeOrders : List Order
  deriving DecidableEq, Repr

namespace HedgeStateManager

/-- A freshly constructed `HedgeStateManager`: field initializers of the class. -/
def new : HedgeStateManager :=
  { currentState := HedgeState.MAIN_ONLY
    config := none
    mainOrder := none
    hedgeOrders := [] }

/-- `initialize(config)` (part_002 lines 25-30): stores the configuration,
resets the state to `MAIN_ONLY`, clears the main order and the hedge-order
list.  The source body is four assignments; it contains no validation and
no throw. -/
def init (_m : HedgeStateManager) (config : HedgeConfig) : HedgeStateManager :=
  { currentState := HedgeState.MAIN_ONLY
    config := some config
    mainOrder := none
    hedgeOrders := [] }

/-- `setMainOrder(order)` (also fires the order-state-update callback,
which does not touch the manager's state). -/
def setMainOrder (m : HedgeStateManager) (order : Order) : HedgeStateManager :=
  { m with mainOrder := some order }

/-- `getCurrentPriceZone(currentPrice, riskLockPrice, profitLockPrice)`
(part_002 lines 125-133). -/
def getCurrentPriceZone (currentPrice riskLockPrice profitLockPrice : ℚ) : PriceZone :=
  if currentPrice ≤ riskLockPrice then
    PriceZone.RISK_LOCK
  else if currentPrice ≥ profitLockPrice then
    PriceZone.PROFIT_LOCK
  else
    PriceZone.NEUTRAL

/-- `handleMainOnlyState(zone)` (part_002 lines 57-80).  Returns the new
manager state, the returned `NextAction` (if any), and the list of
`onStateChange` notifications fired. -/
def handleMainOnlyState (m : HedgeStateManager) (zone : PriceZone) :
    HedgeStateManager × Option NextAction × List HedgeState :=
  match zone with
  | PriceZone.RISK_LOCK =>
      let m1 := { m with currentState := HedgeState.HEDGE_RISK_LOCK }
      (m1,
       some { type := "CREATE_RISK_LOCK"
              description := "价格触及风险锁定线，创建反向风险锁定订单"
              countdown := some 3
              autoExecute := none },
       [HedgeState.HEDGE_RISK_LOCK])
  | PriceZone.PROFIT_LOCK =>
      let m1 := { m with currentState := HedgeState.HEDGE_PROFIT_LOCK }
      (m1,
       some { type := "CREATE_PROFIT_LOCK"
              description := "价格触及利润锁定线，创建正向利润锁定订单"
              countdown := some 3
              autoExecute := none },
       [HedgeState.HEDGE_PROFIT_LOCK])
  | PriceZone.NEUTRAL => (m, none, [])

/-- `handleRiskLockState(zone)` (part_002 lines 83-101).  On a
`PROFIT_LOCK` zone the state advances and a single `CANCEL_RISK_LOCK`
action is returned; `NEUTRAL` and `RISK_LOCK` (the default case) return
`null`. -/
def handleRiskLockState (m : HedgeStateManager) (zone : PriceZone) :
    HedgeStateManager × Option NextAction × List HedgeState :=
  match zone with
  | PriceZone.PROFIT_LOCK =>
      let m1 := { m with currentState := HedgeState.HEDGE_PROFIT_LOCK }
      (m1,
       some { type := "CANCEL_RISK_LOCK"
              description := "价格回升至利润锁定线，取消风险锁定，创建利润锁定"
              countdown := some 3
              autoExecute := none },
       [HedgeState.HEDGE_PROFIT_LOCK])
  | PriceZone.NEUTRAL => (m, none, [])
  | PriceZone.RISK_LOCK => (m, none, [])

/-- `handleProfitLockState(zone)` (part_002 lines 104-122), symmetric. -/
def handleProfitLockState (m : HedgeStateManager) (zone : PriceZone) :
    HedgeStateManager × Option NextAction × List HedgeState :=
  match zone with
  | PriceZone.RISK_LOCK =>
      let m1 := { m with currentState := HedgeState.HEDGE_RISK_LOCK }
      (m1,
       some { type := "CANCEL_PROFIT_LOCK"
              description := "价格回落至风险锁定线，取消利润锁定，创建风险锁定"
              countdown := some 3
              autoExecute := none },
       [HedgeState.HEDGE_RISK_LOCK])
  | PriceZone.NEUTRAL => (m, none, [])
  | PriceZone.PROFIT_LOCK => (m, none, [])

/-- `updatePrice(currentPrice)` (part_002 lines 33-54): returns `null`
without touching anything when the configuration or the main order is
missing, otherwise classifies the zone and dispatches on the current
state (the `CYCLING` default case returns `null`). -/
def updatePrice (m : HedgeStateManager) (currentPrice : ℚ) :
    HedgeStateManager × Option NextAction × List HedgeState :=
  match m.config, m.mainOrder with
  | some config, some _ =>
      let currentZone :=
        getCurrentPriceZone currentPrice config.riskLockPrice config.profitLockPrice
      match m.currentState with
      | HedgeState.MAIN_ONLY => m.handleMainOnlyState currentZone
      | HedgeState.HEDGE_RISK_LOCK => m.handleRiskLockState currentZone
      | HedgeState.HEDGE_PROFIT_LOCK => m.handleProfitLockState currentZone
      | HedgeState.CYCLING => (m, none, [])
  | _, _ => (m, none, [])

/-- `createHedgeOrder(type)` (part_002 lines 136-165).  The declared
parameter type is `'risk' | 'profit'`, but callers pass arbitrary strings
(`DynamicHedgeTradingForm` passes `'RISK_LOCK'`/`'PROFIT_LOCK'` through an
`as any` cast), so the parameter is a `String` compared against `"risk"`
exactly as the source does.  Throws (`none`) when the configuration or the
main order is missing.  `newId` is the `Math.random()`-derived id and `now`
is `Date.now()`. -/
def createHedgeOrder (m : HedgeStateManager) (t : String) (newId : String) (now : ℕ) :
    Option (HedgeStateManager × Order) :=
  match m.config, m.mainOrder with
  | some config, some mainOrder =>
      let hedgeOrder : Order :=
        { id := newId
          marketId := mainOrder.marketId
          side := if mainOrder.side = Side.buy then Side.sell else Side.buy
          type := OrderKind.limit
          price := if t = "risk" then config.riskLockPrice else config.profitLockPrice
          quantity := config.quantity
          filledQuantity := 0
          remainingQuantity := config.quantity
          status := LifecycleStatus.pending
          orderState := if t = "risk" then OrderStatus.RISK_LOCKING
                        else OrderStatus.PROFIT_LOCKING
          timeInForce := TimeInForce.GTC
          createdAt := now
          updatedAt := now }
      some ({ m with hedgeOrders := m.hedgeOrders ++ [hedgeOrder] }, hedgeOrder)
  | _, _ => none

/-- Helper for `cancelHedgeOrder`: `findIndex` on `orderState`, then the
found order is marked `cancelled` (with `updatedAt` refreshed) and spliced
out of the list.  Returns the remaining list and the cancelled order. -/
def cancelFirst (orders : List Order) (orderType : OrderStatus) (now : ℕ) :
    List Order × Option Order :=
  match orders with
  | [] => ([], none)
  | o :: rest =>
      if o.orderState = orderType then
        (rest, some { o with status := LifecycleStatus.cancelled, updatedAt := now })
      else
        let r := cancelFirst rest orderType now
        (o :: r.1, r.2)

/-- `cancelHedgeOrder(type)` (part_002 lines 168-184). -/
def cancelHedgeOrder (m : HedgeStateManager) (t : String) (now : ℕ) :
    HedgeStateManager × Option Order :=
  let orderType := if t = "risk" then OrderStatus.RISK_LOCKING else OrderStatus.PROFIT_LOCKING
  let r := cancelFirst m.hedgeOrders orderType now
  ({ m with hedgeOrders := r.1 }, r.2)

/-- `getCurrentState()`. -/
def getCurrentState (m : HedgeStateManager) : HedgeState :=
  m.currentState

end HedgeStateManager

/-- Feed a list of price samples through `updatePrice`, collecting the
`NextAction` returned at each sample (`none` when the call returned
`null`). -/
def emittedActions (m : HedgeStateManager) (prices : List ℚ) : List (Option NextAction) :=
  match prices with
  | [] => []
  | p :: rest =>
      let r := m.updatePrice p
      r.2.1 :: emittedActions r.1 rest

/-- Feed a list of price samples through `updatePrice`, returning the final
manager state and the list of actions actually emitted. -/
def runPrices (m : HedgeStateManager) (prices : List ℚ) :
    HedgeStateManager × List NextAction :=
  match prices with
  | [] => (m, [])
  | p :: rest =>
      let r := m.updatePrice p
      let rest2 := runPrices r.1 rest
      (rest2.1, r.2.1.toList ++ rest2.2)

/-- Instance state of the `OrderStateManager` class
(src/business/core/services/order/OrderStateManager.ts): the private
`orders` array. -/
structure OrderStateManager where
  orders : List Order
  deriving DecidableEq, Repr

/-- Helper for `OrderStateManager.updateOrder`: `findIndex(order =>
order.id === orderId)` followed by `this.orders[index] = { ...order,
...updates, updatedAt: Date.now() }`.  The `Partial<Order>` update object
is modelled by the field-update function `f`; a missing order leaves the
list unchanged. -/
def updateFirst (orders : List Order) (orderId : String) (f : Order → Order) (now : ℕ) :
    List Order :=
  match orders with
  | [] => []
  | o :: rest =>
      if o.id == orderId then
        { f o with updatedAt := now } :: rest
      else
        o :: updateFirst rest orderId f now

namespace OrderStateManager

/-- `addOrder(order)`. -/
def addOrder (m : OrderStateManager) (order : Order) : OrderStateManager :=
  { orders := m.orders ++ [order] }

/-- `updateOrder(orderId, updates)`. -/
def updateOrder (m : OrderStateManager) (orderId : String) (f : Order → Order) (now : ℕ) :
    OrderStateManager :=
  { orders := updateFirst m.orders orderId f now }

/-- `updateOrderState(orderId, newState)`: `updateOrder` with
`{ orderState: newState }`. -/
def updateOrderState (m : OrderStateManager) (orderId : String) (newState : OrderStatus)
    (now : ℕ) : OrderStateManager :=
  m.updateOrder orderId (fun o => { o with orderState := newState }) now

/-- The `validTransitions` table of `isValidStateTransition`
(OrderStateManager.ts lines 96-113). -/
def validTransitions (s : OrderStatus) : List OrderStatus :=
  match s with
  | OrderStatus.NORMAL_RUNNING =>
      [OrderStatus.PREPARING_RISK_LOCK, OrderStatus.PREPARING_PROFIT_LOCK]
  | OrderStatus.PREPARING_RISK_LOCK => [OrderStatus.RISK_LOCKING]
  | OrderStatus.RISK_LOCKING => [OrderStatus.NORMAL_RUNNING]
  | OrderStatus.PREPARING_PROFIT_LOCK => [OrderStatus.PROFIT_LOCKING]
  | OrderStatus.PROFIT_LOCKING => [OrderStatus.NORMAL_RUNNING]

/-- `isValidStateTransition(currentState, newState)`. -/
def isValidStateTransition (currentState newState : OrderStatus) : Bool :=
  (validTransitions currentState).contains newState

/-- Message of the `ValidationError` raised on an illegal transition
(the source interpolates the two states into a Chinese message; the text
itself is not load-bearing). -/
def invalidTransitionMsg : String :=
  "invalid state transition"

/-- `transitionOrderState(orderId, newState)` (OrderStateManager.ts lines
115-128): order missing -> `false` with no error; illegal edge -> a
`ValidationError` is handed to the error handler and `false` is returned
with the ledger untouched; legal edge -> `updateOrderState` and `true`.
The error handler only logs, so the error is modelled as part of the
result. -/
def transitionOrderState (m : OrderStateManager) (orderId : String) (newState : OrderStatus)
    (now : ℕ) : OrderStateManager × Bool × Option AppError :=
  match m.orders.find? (fun o => o.id == orderId) with
  | none => (m, false, none)
  | some order =>
      if isValidStateTransition order.orderState newState then
        (m.updateOrderState orderId newState now, true, none)
      else
        (m, false, some (createValidationError invalidTransitionMsg))

/-- The `cancellableStates` list of `cancelOrder`. -/
def cancellableStates : List OrderStatus :=
  [OrderStatus.NORMAL_RUNNING, OrderStatus.PREPARING_RISK_LOCK,
   OrderStatus.PREPARING_PROFIT_LOCK]

/-- Message of the `ValidationError` raised on an illegal cancel. -/
def cancelRejectedMsg : String :=
  "order state does not allow cancel"

/-- `cancelOrder(orderId)` (OrderStateManager.ts lines 130-156): order
missing -> `false`; role outside `cancellableStates` -> `ValidationError`
and `false` with the ledger untouched; otherwise `updateOrder` with
`{ status: 'cancelled', orderState: NORMAL_RUNNING, updatedAt: now }`
(the `updatedAt` entry of the update object is overwritten by
`updateOrder`'s own `Date.now()`, so it is subsumed by `now`). -/
def cancelOrder (m : OrderStateManager) (orderId : String) (now : ℕ) :
    OrderStateManager × Bool × Option AppError :=
  match m.orders.find? (fun o => o.id == orderId) with
  | none => (m, false, none)
  | some order =>
      if cancellableStates.contains order.orderState then
        (m.updateOrder orderId
            (fun o => { o with status := LifecycleStatus.cancelled,
                               orderState := OrderStatus.NORMAL_RUNNING }) now,
         true, none)
      else
        (m, false, some (createValidationError cancelRejectedMsg))

end OrderStateManager

/-- `handleExecuteAction(action)` of `DynamicHedgeTradingForm`
(DynamicHedgeTradingForm.tsx lines 229-264), the execute handler that the
form passes to the panel.  Its first statement after the null guard is
`const config = hedgeManagerRef.current.getConfig()`, and the
`HedgeStateManager` class (part_002, the only one in the repository)
defines no `getConfig` method: in JavaScript the property read yields
`undefined`, so the call throws a `TypeError` immediately — before the
`createHedgeOrder` call further down (the only call site that pushes into
`hedgeOrders`) can run, and `cancelHedgeOrder` is not called anywhere.
The async handler therefore rejects without mutating the engine or
creating any order, modelled as the constant error result `none`.  (The
engine's `currentState`, advanced earlier inside `updatePrice`, is
unaffected by the rejection.) -/
def handleExecuteAction (_m : HedgeStateManager) (_action : NextAction) (_newId : String)
    (_now : ℕ) : Option (HedgeStateManager × Order) :=
  none

/-- Feed price samples through the engine, applying every emitted
`NextAction` with `handleExecuteAction` (the scheduler's execute handler),
as in the countdown-expiry path of the UI.  `k` numbers the fresh order
ids; `Date.now()` is fixed at `0`, which no claim observes. -/
def runWithExecute (m : HedgeStateManager) (prices : List ℚ) (k : ℕ) : HedgeStateManager :=
  match prices with
  | [] => m
  | p :: rest =>
      let r := m.updatePrice p
      match r.2.1 with
      | none => runWithExecute r.1 rest k
      | some a =>
          match handleExecuteAction r.1 a (Nat.repr k) 0 with
          | none => runWithExecute r.1 rest (k + 1)
          | some e => runWithExecute e.1 rest (k + 1)

/-- React state of `DynamicHedgePanel` (DynamicHedgePanel.tsx): the
`countdown`, `autoExecuteEnabled` and `nextAction` state hooks, plus the
list of actions passed to `onExecuteAction` (the panel's observable
output, consumed by the execute handler). -/
structure PanelState where
  countdown : ℕ
  autoExecuteEnabled : Bool
  nextAction : Option NextAction
  executed : List NextAction
  deriving DecidableEq, Repr

namespace PanelState

/-- Initial hook values: `countdown 0`, `autoExecuteEnabled true`,
no pending action, nothing executed. -/
def initial : PanelState :=
  { countdown := 0, autoExecuteEnabled := true, nextAction := none, executed := [] }

end PanelState

/-- Truthiness of `nextAction?.autoExecute` as read by the countdown
effect (`undefined` when there is no action or the producer did not set
the property). -/
def actionAutoExecute (s : PanelState) : Bool :=
  (s.nextAction.bind NextAction.autoExecute).getD false

/-- The `onNextActionCallback` registration (DynamicHedgePanel.tsx lines
55-62): store the action; start the countdown only when
`action.countdown && action.autoExecute && autoExecuteEnabled` is truthy
(`0` and `undefined` are falsy). -/
def receiveAction (s : PanelState) (a : NextAction) : PanelState :=
  let s1 : PanelState := { s with nextAction := some a }
  if (a.countdown.getD 0 != 0) && a.autoExecute.getD false && s.autoExecuteEnabled then
    { s1 with countdown := a.countdown.getD 0 }
  else
    s1

/-- `handleAutoExecute` (DynamicHedgePanel.tsx lines 87-92): fire
`onExecuteAction(nextAction)` when an action is pending and reset the
countdown to `0`. -/
def handleAutoExecute (s : PanelState) : PanelState :=
  match s.nextAction with
  | some a => { s with executed := s.executed ++ [a], countdown := 0 }
  | none => s

/-- `handleManualExecute` (DynamicHedgePanel.tsx lines 95-100), textually
the same body as `handleAutoExecute`. -/
def handleManualExecute (s : PanelState) : PanelState :=
  match s.nextAction with
  | some a => { s with executed := s.executed ++ [a], countdown := 0 }
  | none => s

/-- `handleCancelAutoExecute` (DynamicHedgePanel.tsx lines 103-106):
`setCountdown(0); setAutoExecuteEnabled(false)`. -/
def handleCancelAutoExecute (s : PanelState) : PanelState :=
  { s with countdown := 0, autoExecuteEnabled := false }

/-- `handleEnableAutoExecute`: `setAutoExecuteEnabled(true)`. -/
def handleEnableAutoExecute (s : PanelState) : PanelState :=
  { s with autoExecuteEnabled := true }

/-- One second of the countdown effect (DynamicHedgePanel.tsx lines
71-85): a timer exists only while `countdown > 0 && nextAction?.autoExecute
&& autoExecuteEnabled`; when it fires it decrements the countdown and, at
`countdown === 1`, runs `handleAutoExecute`. -/
def tick (s : PanelState) : PanelState :=
  if 0 < s.countdown ∧ actionAutoExecute s = true ∧ s.autoExecuteEnabled = true then
    let s1 : PanelState := { s with countdown := s.countdown - 1 }
    if s.countdown = 1 then handleAutoExecute s1 else s1
  else
    s

/-- A click on the manual-execute button, including its rendering and
enabling conditions (DynamicHedgePanel.tsx: the button is rendered only
for `nextAction.type === 'create_hedge'` and is `disabled` when
`countdown === 0`); when it fires it runs `handleManualExecute`. -/
def clickManualExecute (s : PanelState) : PanelState :=
  match s.nextAction with
  | some a =>
      if a.type == "create_hedge" && (s.countdown != 0) then
        handleManualExecute s
      else
        s
  | none => s

/-- An event on one `NextAction` instance after it has been delivered to
the panel: a timer tick or one of the three button handlers.  (Delivery of
a different action is a new instance and deliberately not an event.) -/
inductive PanelEvent where
  | timerTick
  | manualClick
  | cancelClick
  | enableClick
  deriving DecidableEq, Repr

/-- Apply one panel event. -/
def panelStep (s : PanelState) (e : PanelEvent) : PanelState :=
  match e with
  | PanelEvent.timerTick => tick s
  | PanelEvent.manualClick => clickManualExecute s
  | PanelEvent.cancelClick => handleCancelAutoExecute s
  | PanelEvent.enableClick => handleEnableAutoExecute s

/-- Apply a sequence of panel events. -/
def runPanel (s : PanelState) (evs : List PanelEvent) : PanelState :=
  match evs with
  | [] => s
  | e :: rest => runPanel (panelStep s e) rest

/-- The configuration used throughout the spec's concrete scenarios:
`riskLockPrice = 25`, `profitLockPrice = 30`. -/
def cfg2530 : HedgeConfig :=
  { riskLockPrice := 25, profitLockPrice := 30, quantity := 1, enabled := true }

/-- A main order for the scenarios (a pending buy limit order in
`NORMAL_RUNNING`). -/
def mainOrder0 : Order :=
  { id := "main"
    marketId := "INJ/USDT"
    side := Side.buy
    type := OrderKind.limit
    price := 27
    quantity := 1
    filledQuantity := 0
    remainingQuantity := 1
    status := LifecycleStatus.pending
    orderState := OrderStatus.NORMAL_RUNNING
    timeInForce := TimeInForce.GTC
    createdAt := 0
    updatedAt := 0 }

/-- The engine initialized with `cfg2530` and the main order set:
state `MAIN_ONLY`, no hedge orders. -/
def engine0 : HedgeStateManager :=
  (HedgeStateManager.new.init cfg2530).setMainOrder mainOrder0

/-- The engine state at the moment the `CREATE_PROFIT_LOCK` action is
handed out (after feeding price `30` to `engine0`). -/
def engineAtScheduling : HedgeStateManager :=
  (engine0.updatePrice 30).1

/-- The action emitted by `engine0` on price `30`. -/
def scheduledAction : Option NextAction :=
  (engine0.updatePrice 30).2.1

/-- The countdown-cancel scenario of §8: the emitted `CREATE_PROFIT_LOCK`
action is delivered to a fresh panel, one second elapses, then the user
cancels auto-execution. -/
def panelAfterCancelState : PanelState :=
  match scheduledAction with
  | some a => handleCancelAutoExecute (tick (receiveAction PanelState.initial a))
  | none => PanelState.initial

/-- A configuration whose trigger prices cannot straddle any entry price
(`riskLockPrice = 50 > 10 = profitLockPrice`). -/
def badConfig : HedgeConfig :=
  { riskLockPrice := 50, profitLockPrice := 10, quantity := 1, enabled := true }

/-- A live risk-locking hedge order, for the ledger scenarios. -/
def orderRL : Order :=
  { mainOrder0 with id := "o1", orderState := OrderStatus.RISK_LOCKING }

/-- A ledger holding only `orderRL`. -/
def ledger1 : OrderStateManager :=
  { orders := [orderRL] }

/-- An order in `PREPARING_RISK_LOCK`, for the cancel-role-reset scenario. -/
def orderPrep : Order :=
  { mainOrder0 with id := "o2", orderState := OrderStatus.PREPARING_RISK_LOCK }

/-- A ledger holding only `orderPrep`. -/
def ledger2 : OrderStateManager :=
  { orders := [orderPrep] }

/-! ### Theorems -/

/-- Helper: `updateOrder` rewrites exactly the first order whose id
matches, and a subsequent lookup of that id sees the updated record
(provided the update does not change the id, as at every call site). -/
theorem find?_updateFirst (orders : List Order) (orderId : String) (f : Order → Order)
    (now : ℕ) (order : Order)
    (hfind : orders.find? (fun o => o.id == orderId) = some order)
    (hid : (f order).id = order.id) :
    (updateFirst orders orderId f now).find? (fun o => o.id == orderId) =
      some { f order with updatedAt := now } := by
  induction orders with
  | nil => simp at hfind
  | cons a rest ih =>
      by_cases ha : (a.id == orderId) = true
      · have hfind2 : some a = some order := by
          rw [← hfind]
          simp [List.find?, ha]
        injection hfind2 with h
        subst h
        unfold updateFirst
        rw [if_pos ha]
        have hupd : ((({ f a with updatedAt := now } : Order).id == orderId)) = true := by
          show ((f a).id == orderId) = true
          rw [hid]
          exact ha
        simp [List.find?, hupd]
      · rw [Bool.not_eq_true] at ha
        have hfind2 : rest.find? (fun o => o.id == orderId) = some order := by
          rw [← hfind]
          simp [List.find?, ha]
        unfold updateFirst
        rw [if_neg (by simp [ha])]
        have hres := ih hfind2
        simp [List.find?, ha]
        exact hres

/-- Helper: once the countdown is `0`, no sequence of panel events changes
the executed list, and the countdown stays `0`. -/
theorem panelStep_frozen_of_countdown_zero (s : PanelState) (e : PanelEvent)
    (h : s.countdown = 0) :
    (panelStep s e).executed = s.executed ∧ (panelStep s e).countdown = 0 := by
  cases e with
  | timerTick => simp [panelStep, tick, h]
  | manualClick =>
      cases hn : s.nextAction <;>
        simp [panelStep, clickManualExecute, handleManualExecute, hn, h]
  | cancelClick => simp [panelStep, handleCancelAutoExecute, h]
  | enableClick => simp [panelStep, handleEnableAutoExecute, h]

/-- Helper: `panelStep_frozen_of_countdown_zero` lifted to event lists. -/
theorem runPanel_frozen_of_countdown_zero (evs : List PanelEvent) :
    ∀ s : PanelState, s.countdown = 0 → (runPanel s evs).executed = s.executed := by
  induction evs with
  | nil => intro s _; rfl
  | cons e rest ih =>
      intro s h
      have hs := panelStep_frozen_of_countdown_zero s e h
      rw [runPanel, ih (panelStep s e) hs.2, hs.1]

/-- Helper: with no pending action, no sequence of panel events changes
the executed list. -/
theorem panelStep_frozen_of_no_action (s : PanelState) (e : PanelEvent)
    (h : s.nextAction = none) :
    (panelStep s e).executed = s.executed ∧ (panelStep s e).nextAction = none := by
  cases e with
  | timerTick => simp [panelStep, tick, actionAutoExecute, h]
  | manualClick => simp [panelStep, clickManualExecute, h]
  | cancelClick => simp [panelStep, handleCancelAutoExecute, h]
  | enableClick => simp [panelStep, handleEnableAutoExecute, h]

/-- Helper: `panelStep_frozen_of_no_action` lifted to event lists. -/
theorem runPanel_frozen_of_no_action (evs : List PanelEvent) :
    ∀ s : PanelState, s.nextAction = none → (runPanel s evs).executed = s.executed := by
  induction evs with
  | nil => intro s _; rfl
  | cons e rest ih =>
      intro s h
      have hs := panelStep_frozen_of_no_action s e h
      rw [runPanel, ih (panelStep s e) hs.2, hs.1]

/-- C3 counterexample: `initialize` performs no validation.  The malformed
configuration `badConfig` (trigger prices `50`/`10`, which straddle no
entry price) is accepted: the engine simply stores it and starts in
`MAIN_ONLY`.  `HedgeStateManager.init` is a total function with no error
result — the source body (part_002 lines 25-30) is four assignments and
contains no check and no throw, and no `ConfigurationError` exists anywhere
in the repository — refuting the claim that such a configuration is
rejected with a `ConfigurationError`. -/
theorem c3_counterexample :
    (HedgeStateManager.new.init badConfig).currentState = HedgeState.MAIN_ONLY ∧
    (HedgeStateManager.new.init badConfig).config = some badConfig ∧
    badConfig.profitLockPrice < badConfig.riskLockPrice := by
  refine ⟨rfl, rfl, by norm_num [badConfig]⟩

/-- C3 (amended): `initialize` accepts every configuration without any
validation, and the engine starts in `MAIN_ONLY` with no main order and no
hedge orders. -/
theorem c3_no_validation_at_init (m : HedgeStateManager) (config : HedgeConfig) :
    m.init config =
      { currentState := HedgeState.MAIN_ONLY
        config := some config
        mainOrder := none
        hedgeOrders := [] } :=
  rfl

/-- C4: single transition per crossing.  With `riskLockPrice = 25`,
`profitLockPrice = 30` and the main order set, the price sequence
`[27, 24, 24, 24]` from `MAIN_ONLY` produces exactly one
`CREATE_RISK_LOCK` action, on the first `24`, and `null` on every other
sample; the state returned together with that action is already
`HEDGE_RISK_LOCK`, so re-evaluating the same zone never re-emits the
transition. -/
theorem c4_single_transition_per_crossing :
    (emittedActions engine0 [27, 24, 24, 24]).map (Option.map NextAction.type) =
      [none, some "CREATE_RISK_LOCK", none, none] ∧
    (runPrices engine0 [27, 24]).1.currentState = HedgeState.HEDGE_RISK_LOCK := by
  refine ⟨by decide, by decide⟩

/-- C5 counterexample: the claim quantifies over every pair of trigger
prices, but with `riskLockPrice = 30` and `profitLockPrice = 25` the price
`27` satisfies `price ≥ profitLockPrice` while `classify` returns
`RISK_LOCK` (the `price ≤ riskLockPrice` branch wins), not the
`PROFIT_LOCK` the claim demands. -/
theorem c5_counterexample :
    (25 : ℚ) ≤ 27 ∧
    HedgeStateManager.getCurrentPriceZone 27 30 25 ≠ PriceZone.PROFIT_LOCK := by
  refine ⟨by norm_num, by decide⟩

/-- C5 (amended): for every price and every pair of trigger prices with
`riskLockPrice < profitLockPrice` (which every configuration straddling an
entry price satisfies), `classify` returns `RISK_LOCK` iff
`price ≤ riskLockPrice`, `PROFIT_LOCK` iff `price ≥ profitLockPrice`, and
`NEUTRAL` otherwise — boundary prices belong to the lock zones.  The
claim's concrete instances (`riskLockPrice = 25`, `profitLockPrice = 30`:
`classify 25 = RISK_LOCK`, `classify 30 = PROFIT_LOCK`,
`classify 27.5 = NEUTRAL`, `classify 24.999 = RISK_LOCK`) are instances of
the three clauses. -/
theorem c5_zone_classification (price riskLockPrice profitLockPrice : ℚ)
    (h : riskLockPrice < profitLockPrice) :
    (price ≤ riskLockPrice →
        HedgeStateManager.getCurrentPriceZone price riskLockPrice profitLockPrice =
          PriceZone.RISK_LOCK) ∧
    (price ≥ profitLockPrice →
        HedgeStateManager.getCurrentPriceZone price riskLockPrice profitLockPrice =
          PriceZone.PROFIT_LOCK) ∧
    (riskLockPrice < price → price < profitLockPrice →
        HedgeStateManager.getCurrentPriceZone price riskLockPrice profitLockPrice =
          PriceZone.NEUTRAL) := by
  unfold HedgeStateManager.getCurrentPriceZone
  refine ⟨fun hle => ?_, fun hge => ?_, fun h1 h2 => ?_⟩
  · rw [if_pos hle]
  · rw [if_neg (by linarith), if_pos hge]
  · rw [if_neg (by linarith), if_neg (by simp only [ge_iff_le, not_le]; linarith)]

/-- C5 witness: the amended classification applied at
`price = 24.999`, `riskLockPrice = 25`, `profitLockPrice = 30`. -/
theorem c5_witness :
    HedgeStateManager.getCurrentPriceZone (24.999 : ℚ) 25 30 = PriceZone.RISK_LOCK :=
  (c5_zone_classification (24.999 : ℚ) 25 30 (by norm_num)).1 (by norm_num)

/-- C9: if the engine has no configuration or no main order,
`updatePrice` returns `null`, fires no state-change notification, and
leaves the manager (in particular its `HedgeState`) unchanged. -/
theorem c9_updatePrice_requires_setup (m : HedgeStateManager) (p : ℚ)
    (h : m.config = none ∨ m.mainOrder = none) :
    m.updatePrice p = (m, none, []) := by
  cases hc : m.config with
  | none => simp [HedgeStateManager.updatePrice, hc]
  | some cfg =>
      cases hm : m.mainOrder with
      | none => simp [HedgeStateManager.updatePrice, hc, hm]
      | some o => simp_all

/-- C9 witness: a freshly constructed engine (no configuration, no main
order) ignores the price sample `27`. -/
theorem c9_witness :
    HedgeStateManager.new.updatePrice 27 = (HedgeStateManager.new, none, []) :=
  c9_updatePrice_requires_setup HedgeStateManager.new 27 (Or.inl rfl)

/-- C6: role-transition legality.  (1) `isValidStateTransition` accepts
exactly the six edges of the table in §3; (2) on an illegal edge
`transitionOrderState` returns `false` together with a `ValidationError`
(a returned error value, not an exception — the function is total) and the
whole ledger, hence the order's role and every other field, is unchanged;
(3) a successful call implies the attempted edge is in the table;
(4) a legal edge updates the found order's role through
`updateOrderState`. -/
theorem c6_transitionRole_legality (m : OrderStateManager) (orderId : String)
    (newState : OrderStatus) (now : ℕ) (order : Order)
    (hfind : m.orders.find? (fun o => o.id == orderId) = some order) :
    (∀ c n : OrderStatus, OrderStateManager.isValidStateTransition c n = true ↔
        (c, n) ∈ ([(OrderStatus.NORMAL_RUNNING, OrderStatus.PREPARING_RISK_LOCK),
                   (OrderStatus.NORMAL_RUNNING, OrderStatus.PREPARING_PROFIT_LOCK),
                   (OrderStatus.PREPARING_RISK_LOCK, OrderStatus.RISK_LOCKING),
                   (OrderStatus.RISK_LOCKING, OrderStatus.NORMAL_RUNNING),
                   (OrderStatus.PREPARING_PROFIT_LOCK, OrderStatus.PROFIT_LOCKING),
                   (OrderStatus.PROFIT_LOCKING, OrderStatus.NORMAL_RUNNING)] :
                    List (OrderStatus × OrderStatus))) ∧
    (OrderStateManager.isValidStateTransition order.orderState newState = false →
        m.transitionOrderState orderId newState now =
          (m, false, some (createValidationError OrderStateManager.invalidTransitionMsg))) ∧
    ((m.transitionOrderState orderId newState now).2.1 = true →
        OrderStateManager.isValidStateTransition order.orderState newState = true) ∧
    (OrderStateManager.isValidStateTransition order.orderState newState = true →
        m.transitionOrderState orderId newState now =
          (m.updateOrderState orderId newState now, true, none)) := by
  have e : m.transitionOrderState orderId newState now =
      if OrderStateManager.isValidStateTransition order.orderState newState then
        (m.updateOrderState orderId newState now, true, none)
      else
        (m, false, some (createValidationError OrderStateManager.invalidTransitionMsg)) := by
    unfold OrderStateManager.transitionOrderState
    rw [hfind]
  refine ⟨fun c n => by cases c <;> cases n <;> decide, ?_, ?_, ?_⟩
  · intro h
    rw [e, if_neg (by simp [h])]
  · intro h
    cases hv : OrderStateManager.isValidStateTransition order.orderState newState with
    | true => rfl
    | false =>
        rw [e, if_neg (by simp [hv])] at h
        simp at h
  · intro h
    rw [e, if_pos h]

/-- C6 witness: attempting the absent edge `RISK_LOCKING →
PROFIT_LOCKING` on `ledger1` is rejected with a `ValidationError` and the
ledger is unchanged. -/
theorem c6_witness :
    ledger1.transitionOrderState "o1" OrderStatus.PROFIT_LOCKING 5 =
      (ledger1, false,
       some (createValidationError OrderStateManager.invalidTransitionMsg)) :=
  (c6_transitionRole_legality ledger1 "o1" OrderStatus.PROFIT_LOCKING 5 orderRL
      (by decide)).2.1 (by decide)

/-- C7: cancel is rejected for live hedge orders.  An order found in role
`RISK_LOCKING` or `PROFIT_LOCKING` makes `cancelOrder` return `false` with
a `ValidationError` and the ledger — hence the order's role and lifecycle
status — unchanged; a successful cancel implies the role was in
`cancellableStates` (`NORMAL_RUNNING`, `PREPARING_RISK_LOCK`,
`PREPARING_PROFIT_LOCK`); and for a role in that set the call succeeds and
the order's lifecycle status becomes `cancelled`. -/
theorem c7_cancel_rejection (m : OrderStateManager) (orderId : String) (now : ℕ)
    (order : Order)
    (hfind : m.orders.find? (fun o => o.id == orderId) = some order) :
    (order.orderState = OrderStatus.RISK_LOCKING ∨
        order.orderState = OrderStatus.PROFIT_LOCKING →
      m.cancelOrder orderId now =
        (m, false, some (createValidationError OrderStateManager.cancelRejectedMsg))) ∧
    ((m.cancelOrder orderId now).2.1 = true →
        OrderStateManager.cancellableStates.contains order.orderState = true) ∧
    (OrderStateManager.cancellableStates.contains order.orderState = true →
        (m.cancelOrder orderId now).2.1 = true ∧
        (m.cancelOrder orderId now).1.orders.find? (fun o => o.id == orderId) =
          some { order with status := LifecycleStatus.cancelled,
                            orderState := OrderStatus.NORMAL_RUNNING,
                            updatedAt := now }) := by
  have e : m.cancelOrder orderId now =
      if OrderStateManager.cancellableStates.contains order.orderState then
        (m.updateOrder orderId
            (fun o => { o with status := LifecycleStatus.cancelled,
                               orderState := OrderStatus.NORMAL_RUNNING }) now,
         true, none)
      else
        (m, false, some (createValidationError OrderStateManager.cancelRejectedMsg)) := by
    unfold OrderStateManager.cancelOrder
    rw [hfind]
  refine ⟨?_, ?_, ?_⟩
  · intro h
    rw [e, if_neg ?_]
    rcases h with h | h <;> simp [OrderStateManager.cancellableStates, h]
  · intro h
    cases hv : OrderStateManager.cancellableStates.contains order.orderState with
    | true => rfl
    | false =>
        rw [e, if_neg (by rw [hv]; exact Bool.false_ne_true)] at h
        simp at h
  · intro h
    rw [e, if_pos h]
    refine ⟨rfl, ?_⟩
    exact find?_updateFirst m.orders orderId _ now order hfind rfl

/-- C7 witness: cancelling `orderRL` (role `RISK_LOCKING`) on `ledger1`
returns a `ValidationError` and leaves the ledger unchanged. -/
theorem c7_witness :
    ledger1.cancelOrder "o1" 5 =
      (ledger1, false,
       some (createValidationError OrderStateManager.cancelRejectedMsg)) :=
  (c7_cancel_rejection ledger1 "o1" 5 orderRL (by decide)).1 (Or.inl (by decide))

/-- C10: implicit role reset on a successful cancel.  When the found
order's role is cancellable, `cancelOrder` succeeds with no error, and the
order afterwards differs from before in exactly `status` (now
`cancelled`), `orderState` (reset to `NORMAL_RUNNING`, also from the
`PREPARING_*` roles, edges absent from the transition table), and
`updatedAt`; the record-update on the right-hand side keeps every other
field of `order` verbatim. -/
theorem c10_cancel_role_reset (m : OrderStateManager) (orderId : String) (now : ℕ)
    (order : Order)
    (hfind : m.orders.find? (fun o => o.id == orderId) = some order)
    (hcanc : OrderStateManager.cancellableStates.contains order.orderState = true) :
    (m.cancelOrder orderId now).2.1 = true ∧
    (m.cancelOrder orderId now).2.2 = none ∧
    (m.cancelOrder orderId now).1.orders.find? (fun o => o.id == orderId) =
      some { order with status := LifecycleStatus.cancelled,
                        orderState := OrderStatus.NORMAL_RUNNING,
                        updatedAt := now } := by
  have e : m.cancelOrder orderId now =
      if OrderStateManager.cancellableStates.contains order.orderState then
        (m.updateOrder orderId
            (fun o => { o with status := LifecycleStatus.cancelled,
                               orderState := OrderStatus.NORMAL_RUNNING }) now,
         true, none)
      else
        (m, false, some (createValidationError OrderStateManager.cancelRejectedMsg)) := by
    unfold OrderStateManager.cancelOrder
    rw [hfind]
  have e2 : m.cancelOrder orderId now =
      (m.updateOrder orderId
          (fun o => { o with status := LifecycleStatus.cancelled,
                             orderState := OrderStatus.NORMAL_RUNNING }) now,
       true, none) := by
    rw [e, if_pos hcanc]
  refine ⟨by rw [e2], by rw [e2], ?_⟩
  rw [e2]
  exact find?_updateFirst m.orders orderId _ now order hfind rfl

/-- C10 witness: cancelling `orderPrep` (role `PREPARING_RISK_LOCK`) on
`ledger2` marks it `cancelled` and resets its role to `NORMAL_RUNNING`,
keeping every other field. -/
theorem c10_witness :
    (ledger2.cancelOrder "o2" 7).1.orders.find? (fun o => o.id == "o2") =
      some { orderPrep with status := LifecycleStatus.cancelled,
                            orderState := OrderStatus.NORMAL_RUNNING,
                            updatedAt := 7 } :=
  (c10_cancel_role_reset ledger2 "o2" 7 orderPrep (by decide) (by decide)).2.2

/-- Helper: `updatePrice` never touches the hedge-order list (it only
advances `currentState` and returns an action): every branch of
`handleMainOnlyState`, `handleRiskLockState` and `handleProfitLockState`
is a `currentState` update. -/
theorem updatePrice_hedgeOrders (m : HedgeStateManager) (p : ℚ) :
    (m.updatePrice p).1.hedgeOrders = m.hedgeOrders := by
  unfold HedgeStateManager.updatePrice
  cases hc : m.config with
  | none => rfl
  | some cfg =>
      cases hm : m.mainOrder with
      | none => rfl
      | some o =>
          cases hs : m.currentState <;>
            cases hz : HedgeStateManager.getCurrentPriceZone p cfg.riskLockPrice
                cfg.profitLockPrice <;>
              simp [HedgeStateManager.handleMainOnlyState,
                HedgeStateManager.handleRiskLockState,
                HedgeStateManager.handleProfitLockState, hz]

/-- Helper: a run of the engine with every emitted action applied by the
execute handler never changes the hedge-order list — `updatePrice` does
not touch it and the handler throws before it can create anything. -/
theorem runWithExecute_hedgeOrders (prices : List ℚ) :
    ∀ (m : HedgeStateManager) (k : ℕ),
      (runWithExecute m prices k).hedgeOrders = m.hedgeOrders := by
  induction prices with
  | nil => intro m k; rfl
  | cons p rest ih =>
      intro m k
      unfold runWithExecute
      cases ha : (m.updatePrice p).2.1 with
      | none => simp [ha, ih, updatePrice_hedgeOrders]
      | some a => simp [ha, handleExecuteAction, ih, updatePrice_hedgeOrders]

/-- C1: mutual exclusion of hedge orders.  For every starting engine state
and every sequence of price samples, with each emitted `NextAction`
applied by the scheduler's execute handler (`handleExecuteAction`), the
engine's `hedgeOrders` list never changes; starting from `engine0` (the
initialized engine, whose list is empty) it therefore never contains more
than one active (non-cancelled) hedge order at any point of any run — the
handler's `TypeError` at the nonexistent `getConfig()` makes the hedge
creation path dead at runtime, so the bound holds vacuously. -/
theorem c1_mutual_exclusion :
    (∀ (m : HedgeStateManager) (prices : List ℚ) (k : ℕ),
        (runWithExecute m prices k).hedgeOrders = m.hedgeOrders) ∧
    (∀ (prices : List ℚ) (k : ℕ),
        ((runWithExecute engine0 prices k).hedgeOrders.filter
            (fun o => !(o.status == LifecycleStatus.cancelled))).length ≤ 1) := by
  refine ⟨fun m prices k => runWithExecute_hedgeOrders prices m k, ?_⟩
  intro prices k
  rw [runWithExecute_hedgeOrders prices engine0 k]
  decide

/-- C2 (failing input evaluated): the side switch emits only the cancel.
From `MAIN_ONLY`, prices `[24, 30]` make the engine emit exactly
`CREATE_RISK_LOCK` then `CANCEL_RISK_LOCK`; the state does move to
`HEDGE_PROFIT_LOCK`, but no `CREATE_PROFIT_LOCK` action is ever emitted
(each price sample returns at most one action and `handleRiskLockState`
returns only the cancel), so no new profit-lock order is created,
refuting "CANCEL_RISK_LOCK immediately followed by CREATE_PROFIT_LOCK". -/
theorem c2_side_switch_missing_create :
    (runPrices engine0 [24, 30]).2.map NextAction.type =
      ["CREATE_RISK_LOCK", "CANCEL_RISK_LOCK"] ∧
    ((runPrices engine0 [24, 30]).2.filter
        (fun a => a.type == "CREATE_PROFIT_LOCK")) = [] ∧
    (runPrices engine0 [24, 30]).1.currentState = HedgeState.HEDGE_PROFIT_LOCK := by
  refine ⟨by decide, by decide, by decide⟩

/-- C8 counterexample: in the §8 scenario — `engine0` (state `MAIN_ONLY`)
receives price `30`, the emitted `CREATE_PROFIT_LOCK` (countdown 3) is
delivered to a fresh panel, one second passes, the user cancels — zero
orders are created (nothing reaches `onExecuteAction`), but the engine's
`HedgeState` is `HEDGE_PROFIT_LOCK`, not its pre-scheduling value
`MAIN_ONLY`: the state advance happens when the action is emitted, and
cancelling the countdown does not roll it back, refuting the claim that
the `HedgeState` is unchanged from its value before the action was
scheduled. -/
theorem c8_counterexample :
    panelAfterCancelState.executed = [] ∧
    engine0.currentState = HedgeState.MAIN_ONLY ∧
    engineAtScheduling.currentState ≠ engine0.currentState := by
  refine ⟨by decide, by decide, by decide⟩

/-- C8 (amended): cancelling the countdown prevents any later application
but does not restore the pre-scheduling `HedgeState`.  Concretely, the §8
scenario ends with nothing executed and the engine still in
`HEDGE_PROFIT_LOCK` (the value it already had when the action was handed
out).  In general, over any sequence of subsequent panel events (timer
ticks and button clicks) on the same `NextAction` instance: after
`handleCancelAutoExecute` nothing is ever executed, and after an
application (`handleAutoExecute` or `handleManualExecute`, which reset the
countdown to zero) the executed list never grows again — the exactly-once
guarantee. -/
theorem c8_countdown_cancel :
    (panelAfterCancelState.executed = [] ∧
     engineAtScheduling.currentState = HedgeState.HEDGE_PROFIT_LOCK) ∧
    (∀ (s : PanelState) (evs : List PanelEvent),
        (runPanel (handleCancelAutoExecute s) evs).executed = s.executed) ∧
    (∀ (s : PanelState) (evs : List PanelEvent),
        (runPanel (handleAutoExecute s) evs).executed = (handleAutoExecute s).executed) ∧
    (∀ (s : PanelState) (evs : List PanelEvent),
        (runPanel (handleManualExecute s) evs).executed =
          (handleManualExecute s).executed) := by
  refine ⟨⟨by decide, by decide⟩, ?_, ?_, ?_⟩
  · intro s evs
    rw [runPanel_frozen_of_countdown_zero evs (handleCancelAutoExecute s) rfl]
    rfl
  · intro s evs
    cases hn : s.nextAction with
    | none =>
        rw [runPanel_frozen_of_no_action evs (handleAutoExecute s)
          (by simp [handleAutoExecute, hn])]
    | some a =>
        rw [runPanel_frozen_of_countdown_zero evs (handleAutoExecute s)
          (by simp [handleAutoExecute, hn])]
  · intro s evs
    cases hn : s.nextAction with
    | none =>
        rw [runPanel_frozen_of_no_action evs (handleManualExecute s)
          (by simp [handleManualExecute, hn])]
    | some a =>
        rw [runPanel_frozen_of_countdown_zero evs (handleManualExecute s)
          (by simp [handleManualExecute, hn])]

end Dex
